import Mathlib

set_option autoImplicit false
set_option linter.unusedVariables false

/-!
Verification development for `src/mycity/temp/arcgis/widgets/mapview.js`, the
browser-side Jupyter widget view binding a kernel-hosted model to an ArcGIS map.

The JavaScript is embedded shallowly:

* `JsValue` models JavaScript values as they appear after `JSON.parse` and
  before `JSON.stringify`; numbers are modelled as integers (no property below
  computes with fractional values) and `undefined` is JavaScript's `undefined`.
* a model attribute that only ever holds either the empty string or a
  `JSON.stringify` image is represented as `Option JsValue`: `none` stands for
  `""` and `some v` for `v.stringify`.  `jstrToString` realizes the
  representation; `JSON.parse` of a stored image is the identity on it, and an
  array image is never the empty string (`stringify` of an array starts with a
  bracket), so the `none` / `some` split matches the code's `s == ""` tests.
* external objects (geometries, symbols, renderers, token responses) enter the
  handlers only through their JSON images, so they are passed as `JsValue`
  parameters.
* fallible code paths (a JavaScript `TypeError`, or `JSON.parse` throwing) are
  modelled with `Option`: `none` is the thrown exception.
-/

/-- JavaScript values. `undefined` is `undefined`, which arises from reading a
missing property. Object fields are kept in insertion order, as
`JSON.stringify` emits them. -/
inductive JsValue where
  | undefined : JsValue
  | null : JsValue
  | bool (b : Bool) : JsValue
  | num (n : Int) : JsValue
  | str (s : String) : JsValue
  | arr (elems : List JsValue) : JsValue
  | obj (fields : List (String × JsValue)) : JsValue

/-- Field lookup in a JavaScript object's property list; a missing key reads
as `undefined`. -/
def getField : List (String × JsValue) → String → JsValue
  | [], _ => .undefined
  | (k', v) :: fs, k => if k' = k then v else getField fs k

/-- JavaScript property read `v[k]`: throws a TypeError (`none`) on `null` or
`undefined`, reads the field of an object, and yields `undefined` on any other
value (primitives box, arrays have no such named field; the array `length`
property is not modelled because no modelled path reads it through here). -/
def jsGetProp : JsValue → String → Option JsValue
  | .undefined, _ => none
  | .null, _ => none
  | .obj fs, k => some (getField fs k)
  | _, _ => some .undefined

/-- The keys of an object value, in order. -/
def jsKeys : JsValue → List String
  | .obj fs => fs.map Prod.fst
  | _ => []

/-- Hexadecimal digit for the control-character escape. -/
def hexDigit (n : Nat) : Char :=
  if n < 10 then Char.ofNat (48 + n) else Char.ofNat (87 + n)

/-- Escape of one character inside a JSON string literal (quote, backslash and
control characters; the exact escape chosen for rare control characters is an
embedding detail no claim depends on). -/
def escChar (c : Char) : String :=
  if c = '"' then "\\\""
  else if c = '\\' then "\\\\"
  else if c = '\n' then "\\n"
  else if c = '\r' then "\\r"
  else if c = '\t' then "\\t"
  else if c.toNat < 32 then
    "\\u00" ++ String.mk [hexDigit (c.toNat / 16), hexDigit (c.toNat % 16)]
  else
    String.singleton c

/-- JSON string literal for `s`. -/
def escString (s : String) : String :=
  "\"" ++ String.join (s.data.map escChar) ++ "\""

mutual

/-- `JSON.stringify`. Inside an array `undefined` serializes as `null`; inside
an object a field holding `undefined` is dropped. (`JSON.stringify` at top
level on `undefined` itself returns no string; no modelled write serializes a
top-level `undefined`, every serialized root below is an array.) -/
def JsValue.stringify : JsValue → String
  | .undefined => "null"
  | .null => "null"
  | .bool b => if b then "true" else "false"
  | .num n => toString n
  | .str s => escString s
  | .arr xs => "[" ++ String.intercalate "," (stringifyElems xs) ++ "]"
  | .obj fs => "\x7b" ++ String.intercalate "," (stringifyFields fs) ++ "\x7d"

/-- Serialized forms of the elements of an array. -/
def stringifyElems : List JsValue → List String
  | [] => []
  | x :: xs => JsValue.stringify x :: stringifyElems xs

/-- Serialized `key:value` pieces of an object; fields holding `undefined` are
dropped, as `JSON.stringify` drops them. -/
def stringifyFields : List (String × JsValue) → List String
  | [] => []
  | (_, JsValue.undefined) :: fs => stringifyFields fs
  | (k, v) :: fs => (escString k ++ ":" ++ JsValue.stringify v) :: stringifyFields fs

end

/-- The string stored in a model attribute under the `Option JsValue`
representation: `none` is the empty string, `some v` the serialization of `v`. -/
def jstrToString : Option JsValue → String
  | none => ""
  | some v => v.stringify

/-- The whitespace characters `String.prototype.trim` strips (the unicode
space variants JavaScript also strips are immaterial here). -/
def jsWhitespace (c : Char) : Bool :=
  c = ' ' || c = '\t' || c = '\n' || c = '\r' || c = '\x0b' || c = '\x0c'

/-- `String.prototype.trim`. -/
def jsTrim (s : String) : String :=
  String.mk (((s.data.dropWhile jsWhitespace).reverse.dropWhile jsWhitespace).reverse)

/-- The test `s.indexOf("\x7b") > -1` used by the view to decide whether a mode
or extent string carries JSON. -/
def strContainsBrace (s : String) : Bool :=
  s.data.contains (Char.ofNat 123)

/-! ## The JSON list attributes (`_js_layer_list`, `_js_interactive_drawn_graphic`)

Source lines 442-449, 796-804, 966-974 and 1086-1094 all read one of the two
list attributes with the same idiom: an empty string becomes the empty array,
anything else goes through `JSON.parse`, and the new record is pushed. -/

/-- The shared read-parse-push idiom. `none` input is the stored empty string
(taken as the empty array, lines 443-445 etc.); a stored array is extended. If
the stored serialization is not an array, `JSON.parse` succeeds but `.push` on
the resulting non-array throws a TypeError, modelled as `none`. -/
def pushToJsonList : Option JsValue → JsValue → Option (List JsValue)
  | none, x => some [x]
  | some (.arr l), x => some (l ++ [x])
  | some _, _ => none

/-- The list a stored attribute denotes: empty string and non-arrays read as
the empty list (only used to phrase length properties). -/
def readJsonList : Option JsValue → List JsValue
  | some (.arr l) => l
  | _ => []

/-- The data-model invariant the spec states for the two list attributes:
empty string when absent, a serialized array when present. -/
def jsonListInv (v : Option JsValue) : Prop :=
  v = none ∨ ∃ l, v = some (JsValue.arr l)

/-! ## Outgoing messages to the kernel-side model -/

/-- Argument of a `this.send` call. -/
structure OutMsg where
  event : String
  message : JsValue

/-- `mouse_clicked` (line 1204-1206): sends the map point under event
`mouseclick`. -/
def mouse_clicked (geometry : JsValue) : OutMsg :=
  { event := "mouseclick", message := geometry }

/-- The message `draw_end` sends (line 1211). -/
def draw_end_send (geometry : JsValue) : OutMsg :=
  { event := "draw-end", message := geometry }

/-- The message `_handle_click` sends (line 1231). -/
def handle_click_send : OutMsg :=
  { event := "click", message := .str "xyz" }

/-- The live `this.send` call sites of the view, exhaustively: `mouse_clicked`
(line 1205), `draw_end` (line 1211) and `_handle_click` (line 1231). The only
other `send` occurrences in the file sit inside the commented-out block at
lines 480-520. -/
inductive SendSite where
  | mouseClicked (geometry : JsValue) : SendSite
  | drawEnd (geometry : JsValue) : SendSite
  | handleClick : SendSite

/-- The message a send site passes to `this.send`. -/
def SendSite.sent : SendSite → OutMsg
  | .mouseClicked g => mouse_clicked g
  | .drawEnd g => draw_end_send g
  | .handleClick => handle_click_send

/-! ## The draw toolbar: `onDrawEnd` (lines 431-452) and the drawn-graphic list -/

/-- A symbol object of the external library; `onDrawEnd` only ever constructs
`new SimpleFillSymbol()`, whose serialized image is the carried `JsValue`. -/
inductive EsriSymbol where
  | simpleFillSymbol (jsonImage : JsValue) : EsriSymbol

/-- The JSON image of a symbol, as `JSON.stringify` embeds it in a record. -/
def EsriSymbol.jsonImage : EsriSymbol → JsValue
  | .simpleFillSymbol j => j

/-- A graphic in the map's graphics collection: the drawn geometry and its
symbol. -/
structure MapGraphic where
  geometry : JsValue
  symbol : EsriSymbol

/-- The slice of view/model state `onDrawEnd` touches: the map graphics, the
draw toolbar activation, the `mode` attribute, the
`_js_interactive_drawn_graphic` attribute (under the `Option JsValue`
representation) and the outgoing message log. -/
structure DrawState where
  graphics : List MapGraphic
  toolbarActive : Bool
  mode : String
  dgList : Option JsValue
  sent : List OutMsg

/-- `onDrawEnd` (lines 431-452): adds `new Graphic(geometry, new
SimpleFillSymbol())` to the map graphics, deactivates the toolbar, runs
`draw_end` (sets `mode` to `navigate`, lines 1208-1212, and sends the
`draw-end` message), then appends the record with fields `geometry` and
`symbol` to the drawn-graphic list attribute. `geometry` and `sfsJson` are the
JSON images of the drawn geometry and of the fresh `SimpleFillSymbol`. A
`none` result is the TypeError thrown by `.push` when the stored value is a
non-array serialization; the partial effects before that throw are not
tracked, no claim concerns them. -/
def onDrawEnd (st : DrawState) (geometry sfsJson : JsValue) : Option DrawState :=
  let sym := EsriSymbol.simpleFillSymbol sfsJson
  let graphics1 := st.graphics ++ [{ geometry := geometry, symbol := sym }]
  let syncGraphic := JsValue.obj [("geometry", geometry), ("symbol", sym.jsonImage)]
  match pushToJsonList st.dgList syncGraphic with
  | none => none
  | some l2 =>
    some { graphics := graphics1
           toolbarActive := false
           mode := "navigate"
           dgList := some (JsValue.arr l2)
           sent := st.sent ++ [draw_end_send geometry] }

/-- Projection of `mode_changed` (lines 527-573) onto the
`_js_interactive_drawn_graphic` attribute: only the `###clear_graphics` branch
writes it (line 534, to the empty string); no other branch touches it. -/
def mode_changed_dg (mode : String) (cur : Option JsValue) : Option JsValue :=
  if mode = "###clear_graphics" then none else cur

/-! ## Layer descriptors appended to `_js_layer_list` by `layer_changed` -/

/-- A renderer attached to a layer. `jsonForm` is what `renderer.toJson()`
returns (stored by the FeatureLayer load handler, line 791); `rawForm` is the
renderer object's own serialization image (stored where the code keeps the
object itself, lines 961 and 1081); `declaredClass` is its declared class. -/
structure RendererInfo where
  jsonForm : JsValue
  rawForm : JsValue
  declaredClass : String

/-- The fields of a loaded FeatureLayer the load handler reads (lines
786-793). `renderer` is `none` when `layer.renderer` is absent (falsy). -/
structure FeatureLayerInfo where
  id : String
  normalization : JsValue
  refreshInterval : JsValue
  url : String
  renderer : Option RendererInfo

/-- The `_layerDict` record the FeatureLayer load handler builds (lines
786-793): base keys `id`, `normalization`, `refreshInterval`, `url`, then
`renderer` (as `renderer.toJson()`) and `rendererType` exactly when
`layer.renderer` is present. -/
def mkFeatureLayerDict (l : FeatureLayerInfo) : JsValue :=
  let base := [("id", JsValue.str l.id), ("normalization", l.normalization),
               ("refreshInterval", l.refreshInterval), ("url", JsValue.str l.url)]
  match l.renderer with
  | none => .obj base
  | some r => .obj (base ++ [("renderer", r.jsonForm),
                             ("rendererType", JsValue.str r.declaredClass)])

/-- The value the FeatureLayer load handler writes into `_js_layer_list`
(lines 795-806): the stored list extended with the layer dict, reserialized. -/
def featureLayerLoadWrite (cur : Option JsValue) (l : FeatureLayerInfo) :
    Option (Option JsValue) :=
  (pushToJsonList cur (mkFeatureLayerDict l)).map (fun xs => some (JsValue.arr xs))

/-- The fields of a loaded imagery layer its load handler reads (lines
955-963). -/
structure ImageryLayerInfo where
  id : String
  bandIds : JsValue
  mosaicRule : JsValue
  url : String
  renderingRule : JsValue
  renderer : Option RendererInfo

/-- The `_layerDict` record the imagery-layer load handler builds (lines
955-963); here the renderer is stored as the object itself, not `toJson()`. -/
def mkImageryLayerDict (l : ImageryLayerInfo) : JsValue :=
  let base := [("id", JsValue.str l.id), ("bandIds", l.bandIds),
               ("mosaicRule", l.mosaicRule), ("url", JsValue.str l.url),
               ("renderingRule", l.renderingRule)]
  match l.renderer with
  | none => .obj base
  | some r => .obj (base ++ [("renderer", r.rawForm),
                             ("rendererType", JsValue.str r.declaredClass)])

/-- The value the imagery-layer load handler writes into `_js_layer_list`
(lines 965-976). -/
def imageryLayerLoadWrite (cur : Option JsValue) (l : ImageryLayerInfo) :
    Option (Option JsValue) :=
  (pushToJsonList cur (mkImageryLayerDict l)).map (fun xs => some (JsValue.arr xs))

/-- The `_layerDict` record the feature-collection branch builds (lines
1076-1083); same base keys as a FeatureLayer, renderer stored as the object
itself. -/
def mkFCLayerDict (l : FeatureLayerInfo) : JsValue :=
  let base := [("id", JsValue.str l.id), ("normalization", l.normalization),
               ("refreshInterval", l.refreshInterval), ("url", JsValue.str l.url)]
  match l.renderer with
  | none => .obj base
  | some r => .obj (base ++ [("renderer", r.rawForm),
                             ("rendererType", JsValue.str r.declaredClass)])

/-- The value the feature-collection branch writes into `_js_layer_list`
(lines 1085-1096). -/
def fcLayerWrite (cur : Option JsValue) (l : FeatureLayerInfo) :
    Option (Option JsValue) :=
  (pushToJsonList cur (mkFCLayerDict l)).map (fun xs => some (JsValue.arr xs))

/-- Insertion-order field update of a JavaScript object: an existing key keeps
its position, a new key is appended. -/
def updateField : List (String × JsValue) → String → JsValue → List (String × JsValue)
  | [], k, v => [(k, v)]
  | (k', v') :: fs, k, v =>
    if k' = k then (k, v) :: fs else (k', v') :: updateField fs k v

/-- Non-strict-mode JavaScript property assignment `target[k] = v`: throws a
TypeError (`none`) on `null` / `undefined`, updates an object, and is a silent
no-op on primitives (boxing) and on arrays (a named array property is
invisible to `JSON.stringify`, so the value is unchanged at serialization
granularity). -/
def setPropJs : JsValue → String → JsValue → Option JsValue
  | .undefined, _, _ => none
  | .null, _, _ => none
  | .obj fs, k, v => some (.obj (updateField fs k v))
  | other, _, _ => some other

/-- Lines 820-821: `_current_list2[_current_list2.length - 1]['renderer'] = ...`
and the matching `rendererType` assignment, on a parsed array. On the empty
array the index is `-1`, the element read is `undefined` and the assignment
throws (`none`). -/
def setLastRecord (l : List JsValue) (rendererJson : JsValue) (rendererClass : String) :
    Option (List JsValue) :=
  match l.getLast? with
  | none => none
  | some last =>
    match setPropJs last "renderer" rendererJson with
    | none => none
    | some last1 =>
      match setPropJs last1 "rendererType" (JsValue.str rendererClass) with
      | none => none
      | some last2 => some (l.dropLast ++ [last2])

/-- The `renderer-change` handler's write to `_js_layer_list` (lines 810-832):
fires only when `lyr_options` is defined, carries a `renderer` key, and that
renderer is `ClassedColorRenderer` or `ClassedSizeRenderer`; then, if the
stored list is not the empty string, it is parsed, the last record's
`renderer` / `rendererType` fields are set, and the list is reserialized.
Result `none` means no write (a failed guard, or a TypeError before the
write). A stored non-empty string serialization survives unchanged because
property assignment on a string primitive is a silent no-op (on the stored
empty-string-serialization `"\x22\x22"` the index `-1` read yields `undefined`
and the assignment throws); other stored non-array serializations throw a
TypeError before the write (an object carrying crafted `length` / index
properties would behave differently, but every theorem below assumes the
data-model invariant `jsonListInv`, under which only `none` and arrays occur). -/
def rendererChangeListWrite (hasOptions : Bool) (optRenderer : Option String)
    (cur : Option JsValue) (rendererJson : JsValue) (rendererClass : String) :
    Option (Option JsValue) :=
  if hasOptions = false then none
  else
    match optRenderer with
    | none => none
    | some r =>
      if r = "ClassedColorRenderer" || r = "ClassedSizeRenderer" then
        match cur with
        | none => none
        | some (.arr l) =>
          (setLastRecord l rendererJson rendererClass).map (fun l' => some (JsValue.arr l'))
        | some (.str s) => if s = "" then none else some (some (.str s))
        | some _ => none
      else none

/-! ## `render` (lines 262-309): token pass-through and map loading -/

/-- The externally visible calls `render` issues before and around loading the
map. -/
inductive ExtCall where
  | corsPush (server : JsValue) : ExtCall
  | registerServers (server tokenServiceUrl : JsValue) : ExtCall
  | generateToken (server tokenServiceUrl username password : JsValue) : ExtCall
  | registerToken (server userId token expires ssl : JsValue) : ExtCall
  | loadMap : ExtCall

/-- Whether a call is the map load. -/
def ExtCall.isLoadMap : ExtCall → Bool
  | .loadMap => true
  | _ => false

/-- The resolved response of `IdentityManager.generateToken` (lines 290-297). -/
structure TokenResponse where
  token : JsValue
  expires : JsValue
  ssl : JsValue

/-- The call sequence `render` issues (lines 267-309), on the success path of
the external promises. `tok` stands for `JSON.parse(token_info)`, read only in
the non-empty branch; `resp` for the resolved `generateToken` response. In the
token branch the code pushes the server onto the CORS list, registers the
server (a `ServerInfo` built from `token.server` and `token.tokenurl`),
generates a token from `token.username` and `token.password`, registers the
returned token for the server and user, and only then loads the map; with an
empty or whitespace `_token_info` it loads the map immediately. `none` is the
TypeError thrown when the parsed token value cannot be read (e.g. `null`). -/
def renderCalls (token_info : String) (tok : JsValue) (resp : TokenResponse) :
    Option (List ExtCall) :=
  if token_info ≠ "" ∧ jsTrim token_info ≠ "" then
    match jsGetProp tok "server", jsGetProp tok "tokenurl",
          jsGetProp tok "username", jsGetProp tok "password" with
    | some server, some tokenurl, some username, some password =>
      some [ExtCall.corsPush server,
            ExtCall.registerServers server tokenurl,
            ExtCall.generateToken server tokenurl username password,
            ExtCall.registerToken server username resp.token resp.expires resp.ssl,
            ExtCall.loadMap]
    | _, _, _, _ => none
  else
    some [ExtCall.loadMap]

/-! ## `basemap_changed` (lines 1155-1185) -/

/-- A basemap layer as the handler reads it: its `url` and the result of
`JSON.parse(layer.resourceInfo)` — `some v` when the parse succeeds with `v`,
`none` when it throws (invalid or missing metadata). -/
structure BasemapLayer where
  url : JsValue
  resourceInfo : Option JsValue

/-- The title recorded for one basemap layer (lines 1163-1169): inside the
`try`, `JSON.parse(resourceInfo).documentInfo.Title`; any throw (parse failure,
or a TypeError while reading the property path) is caught and the title falls
back to the model's `_basemap`. A `documentInfo` object lacking `Title` yields
`undefined` without throwing, so no fallback happens there. -/
def basemapTitle (bm : String) (ri : Option JsValue) : JsValue :=
  match ri with
  | none => JsValue.str bm
  | some v =>
    match jsGetProp v "documentInfo" with
    | none => JsValue.str bm
    | some d =>
      match jsGetProp d "Title" with
      | none => JsValue.str bm
      | some t => t

/-- The record list `basemap_changed` accumulates (lines 1159-1174): one
`url` / `title` record per basemap layer. -/
def basemap_changed_records (bm : String) (layers : List BasemapLayer) : List JsValue :=
  layers.map (fun ly => JsValue.obj [("url", ly.url), ("title", basemapTitle bm ly.resourceInfo)])

/-- The string written to `_js_basemap` (line 1176). -/
def basemap_changed_write (bm : String) (layers : List BasemapLayer) : String :=
  (JsValue.arr (basemap_changed_records bm layers)).stringify

/-! ## `load_map` with a blank web-map id (lines 353-384) -/

/-- The extent `new Extent()` is populated with (lines 360-366). -/
structure ExtentArgs where
  xmin : JsValue
  xmax : JsValue
  ymin : JsValue
  ymax : JsValue
  wkid : Int

/-- The two ways the blank-id branch constructs the map. -/
inductive MapCtor where
  | fromExtent (basemap : String) (extent : ExtentArgs) : MapCtor
  | fromCenterZoom (basemap : String) (center : List JsValue) (zoom : JsValue) : MapCtor

/-- The blank-id branch of `load_map` (lines 353-384). `parsedExtent` stands
for `JSON.parse(_extent)`, evaluated only in the brace branch. The result also
carries the model's `center` array after the call: `center.reverse()` mutates
it in place in the center branch. `none` is the TypeError thrown when the
parsed extent's fields cannot be read (e.g. a parsed `null`). -/
def load_map_blankId (basemap extentStr : String) (parsedExtent : JsValue)
    (center : List JsValue) (zoom : JsValue) : Option (MapCtor × List JsValue) :=
  if strContainsBrace extentStr then
    match jsGetProp parsedExtent "xmin", jsGetProp parsedExtent "xmax",
          jsGetProp parsedExtent "ymin", jsGetProp parsedExtent "ymax" with
    | some a, some b, some c, some d =>
      some (MapCtor.fromExtent basemap
              { xmin := a, xmax := b, ymin := c, ymax := d, wkid := 4326 },
            center)
    | _, _, _, _ => none
  else
    some (MapCtor.fromCenterZoom basemap center.reverse zoom, center.reverse)

/-! ## Extent synchronization (lines 424-429 and 1214-1219) -/

/-- An `extent-change` event as `onExtentChange` destructures it. -/
structure ExtentEvent where
  extent : JsValue
  levelChange : Bool

/-- The model slice `extent_change` writes: the `_jsextent` attribute and a
count of `this.touch()` syncs. -/
structure ExtentSync where
  jsextent : String
  touches : Nat

/-- `extent_change` (lines 1214-1219): stores `JSON.stringify(extent)` in
`_jsextent` and syncs the model. -/
def extent_change (st : ExtentSync) (extent : JsValue) (zoomed : Bool) : ExtentSync :=
  { jsextent := extent.stringify, touches := st.touches + 1 }

/-- `onExtentChange` (lines 424-429): forwards the event's extent and
`levelChange` flag to `extent_change`. -/
def onExtentChange (st : ExtentSync) (evt : ExtentEvent) : ExtentSync :=
  extent_change st evt.extent evt.levelChange

/-! ## `center_changed` (lines 1112-1115) -/

/-- The model's `center` array and the log of `map.centerAt` calls. -/
structure CenterState where
  center : List JsValue
  centerAtCalls : List (List JsValue)

/-- `center_changed`: `map.centerAt(model.get('center').reverse())`.
`Array.prototype.reverse` mutates the model's stored array in place and
returns it, so the model's `center` ends up reversed as a side effect. -/
def center_changed (st : CenterState) : CenterState :=
  let c := st.center.reverse
  { center := c, centerAtCalls := st.centerAtCalls ++ [c] }

/-! ## `start_time_changed` / `end_time_changed` (lines 1133-1153) -/

/-- The arguments the handlers pass to `new Date(...)` when building the
`TimeExtent`; the external `Date` constructor is a function of its argument
string, so equal arguments give equal dates. -/
structure TimeExtentArgs where
  startTime : String
  endTime : String

/-- The model slice the two time handlers touch. -/
structure TimeState where
  start_time : String
  end_time : String
  mapTimeExtent : Option TimeExtentArgs

/-- `start_time_changed` (lines 1133-1142): when `start_time` is truthy and
non-blank after trimming, sets the map's time extent from `start_time` and
`end_time`; otherwise leaves the map untouched. -/
def start_time_changed (st : TimeState) : TimeState :=
  if st.start_time ≠ "" ∧ jsTrim st.start_time ≠ "" then
    { st with mapTimeExtent := some { startTime := st.start_time, endTime := st.end_time } }
  else st

/-- `end_time_changed` (lines 1144-1153): the same update, guarded on
`end_time` instead. -/
def end_time_changed (st : TimeState) : TimeState :=
  if st.end_time ≠ "" ∧ jsTrim st.end_time ≠ "" then
    { st with mapTimeExtent := some { startTime := st.start_time, endTime := st.end_time } }
  else st

/-! ## Helper lemmas -/

theorem jsTrim_empty : jsTrim "" = "" := rfl

theorem ne_empty_of_jsTrim_ne {s : String} (h : jsTrim s ≠ "") : s ≠ "" := by
  intro hs
  exact h (by rw [hs, jsTrim_empty])

/-- The serialization of an array is never the empty string, so the `none` /
`some` representation of the list attributes matches the code's `s == ""`
tests. -/
theorem stringify_arr_ne_empty (l : List JsValue) : (JsValue.arr l).stringify ≠ "" := by
  intro hEq
  have h2 := congrArg String.length hEq
  simp only [JsValue.stringify] at h2
  rw [String.length_append, String.length_append] at h2
  have hl : ("[" : String).length = 1 := rfl
  have hr : ("]" : String).length = 1 := rfl
  have he : ("" : String).length = 0 := rfl
  rw [hl, hr, he] at h2
  omega

/-- Under the data-model invariant, any value the `renderer-change` handler
writes to `_js_layer_list` is a serialized array. -/
theorem rendererChange_writes_array (hasOptions : Bool) (optRenderer : Option String)
    (cur : Option JsValue) (rj : JsValue) (rc : String) (h : jsonListInv cur)
    (w : Option JsValue)
    (hw : rendererChangeListWrite hasOptions optRenderer cur rj rc = some w) :
    ∃ l, w = some (JsValue.arr l) := by
  rcases h with rfl | ⟨xs, rfl⟩
  · unfold rendererChangeListWrite at hw
    split at hw
    · exact Option.noConfusion hw
    · split at hw
      · exact Option.noConfusion hw
      · split at hw
        · exact Option.noConfusion hw
        · exact Option.noConfusion hw
  · unfold rendererChangeListWrite at hw
    split at hw
    · exact Option.noConfusion hw
    · split at hw
      · exact Option.noConfusion hw
      · split at hw
        · dsimp only at hw
          cases hset : setLastRecord xs rj rc with
          | none => rw [hset] at hw; exact Option.noConfusion hw
          | some l' =>
            rw [hset] at hw
            cases hw
            exact ⟨l', rfl⟩
        · exact Option.noConfusion hw

/-! ## Claim theorems -/

/-- Claim C2: every message the view sends to the kernel-side model uses one of
exactly the event names `mouseclick`, `draw-end` and `click`: `mouse_clicked`
sends `mouseclick` with the map point as message, `draw_end` sends `draw-end`
with the geometry as message, `_handle_click` sends `click`; the send sites are
exhaustive, so no other event name is ever sent. -/
theorem c2_outgoing_event_names :
    (∀ g, (SendSite.mouseClicked g).sent = { event := "mouseclick", message := g }) ∧
    (∀ g, (SendSite.drawEnd g).sent = { event := "draw-end", message := g }) ∧
    SendSite.handleClick.sent = { event := "click", message := JsValue.str "xyz" } ∧
    (∀ s : SendSite,
      s.sent.event = "mouseclick" ∨ s.sent.event = "draw-end" ∨ s.sent.event = "click") := by
  refine ⟨fun g => rfl, fun g => rfl, rfl, fun s => ?_⟩
  cases s
  · exact Or.inl rfl
  · exact Or.inr (Or.inl rfl)
  · exact Or.inr (Or.inr rfl)

/-- Claim C8: every `extent-change` event reaching the handler makes the view
store the JSON serialization of the event's extent in `_jsextent` and sync the
model, so after any event sequence `_jsextent` holds the serialization of the
most recent extent. -/
theorem c8_jsextent_tracks_extent_events (st : ExtentSync) (evt : ExtentEvent)
    (evts : List ExtentEvent) (e : ExtentEvent) :
    (onExtentChange st evt).jsextent = evt.extent.stringify ∧
    (onExtentChange st evt).touches = st.touches + 1 ∧
    (List.foldl onExtentChange st (evts ++ [e])).jsextent = e.extent.stringify := by
  refine ⟨rfl, rfl, ?_⟩
  rw [List.foldl_append]
  rfl

/-- Claim C9: `center_changed` reverses the model's stored `center` array in
place before recentering, so one invocation leaves the model's center reversed,
a second invocation recenters at the original order, and the blank-id
`load_map` center branch performs the same in-place reversal. -/
theorem c9_center_reverse_in_place (st : CenterState) (basemap extentStr : String)
    (parsedExtent zoom : JsValue) :
    (center_changed st).center = st.center.reverse ∧
    (center_changed st).centerAtCalls = st.centerAtCalls ++ [st.center.reverse] ∧
    (center_changed (center_changed st)).center = st.center ∧
    (center_changed (center_changed st)).centerAtCalls
      = st.centerAtCalls ++ [st.center.reverse, st.center] ∧
    (strContainsBrace extentStr = false →
      load_map_blankId basemap extentStr parsedExtent st.center zoom
        = some (MapCtor.fromCenterZoom basemap st.center.reverse zoom, st.center.reverse)) := by
  refine ⟨rfl, rfl, ?_, ?_, fun h => ?_⟩
  · simp [center_changed]
  · simp [center_changed]
  · simp [load_map_blankId, h]

theorem c9_witness :
    strContainsBrace "" = false ∧
    load_map_blankId "topo" "" JsValue.null [JsValue.num 1, JsValue.num 2] (JsValue.num 5)
      = some (MapCtor.fromCenterZoom "topo" ([JsValue.num 1, JsValue.num 2].reverse)
                (JsValue.num 5),
              [JsValue.num 1, JsValue.num 2].reverse) :=
  ⟨by decide, (c9_center_reverse_in_place ⟨[JsValue.num 1, JsValue.num 2], []⟩ "topo" ""
      JsValue.null (JsValue.num 5)).2.2.2.2 (by decide)⟩

/-- Claim C10: when both `start_time` and `end_time` are non-blank after
trimming, `start_time_changed` and `end_time_changed` perform the same update,
setting the map's time extent from the two attributes; a handler whose own
attribute is empty or whitespace leaves the state unchanged. -/
theorem c10_time_handlers_equivalent (st : TimeState) :
    (jsTrim st.start_time ≠ "" → jsTrim st.end_time ≠ "" →
      start_time_changed st = end_time_changed st ∧
      (start_time_changed st).mapTimeExtent
        = some { startTime := st.start_time, endTime := st.end_time }) ∧
    (jsTrim st.start_time = "" → start_time_changed st = st) ∧
    (jsTrim st.end_time = "" → end_time_changed st = st) := by
  refine ⟨fun h1 h2 => ?_, fun h => ?_, fun h => ?_⟩
  · have hs := ne_empty_of_jsTrim_ne h1
    have he := ne_empty_of_jsTrim_ne h2
    constructor
    · simp [start_time_changed, end_time_changed, hs, he, h1, h2]
    · simp [start_time_changed, hs, h1]
  · simp [start_time_changed, h]
  · simp [end_time_changed, h]

theorem c10_witness :
    jsTrim "2016-01-01" ≠ "" ∧ jsTrim "2016-02-01" ≠ "" ∧
    (start_time_changed ⟨"2016-01-01", "2016-02-01", none⟩
       = end_time_changed ⟨"2016-01-01", "2016-02-01", none⟩ ∧
     (start_time_changed ⟨"2016-01-01", "2016-02-01", none⟩).mapTimeExtent
       = some { startTime := "2016-01-01", endTime := "2016-02-01" }) :=
  ⟨by decide, by decide,
   (c10_time_handlers_equivalent ⟨"2016-01-01", "2016-02-01", none⟩).1 (by decide) (by decide)⟩

/-- Claim C3: on a `draw-end` toolbar event the view adds a graphic with the
drawn geometry and a simple fill symbol to the map, deactivates the draw
toolbar, sets `mode` to `navigate`, sends a `draw-end` message carrying the
geometry, and appends exactly one `geometry` / `symbol` record to the
drawn-graphic list, whose length grows by exactly one. -/
theorem c3_on_draw_end_effects (st : DrawState) (g sfs : JsValue)
    (h : jsonListInv st.dgList) :
    onDrawEnd st g sfs
      = some { graphics := st.graphics ++ [{ geometry := g,
                                             symbol := EsriSymbol.simpleFillSymbol sfs }],
               toolbarActive := false,
               mode := "navigate",
               dgList := some (JsValue.arr (readJsonList st.dgList
                 ++ [JsValue.obj [("geometry", g), ("symbol", sfs)]])),
               sent := st.sent ++ [draw_end_send g] } ∧
    (readJsonList (some (JsValue.arr (readJsonList st.dgList
        ++ [JsValue.obj [("geometry", g), ("symbol", sfs)]])))).length
      = (readJsonList st.dgList).length + 1 := by
  obtain ⟨gr, tb, md, dg, snt⟩ := st
  rcases h with rfl | ⟨xs, rfl⟩
  · exact ⟨rfl, rfl⟩
  · refine ⟨rfl, ?_⟩
    simp [readJsonList]

theorem c3_witness :
    onDrawEnd ⟨[], true, "polygon", none, []⟩ (JsValue.num 7) (JsValue.obj [])
      = some { graphics := [] ++ [{ geometry := JsValue.num 7,
                                    symbol := EsriSymbol.simpleFillSymbol (JsValue.obj []) }],
               toolbarActive := false,
               mode := "navigate",
               dgList := some (JsValue.arr (readJsonList none
                 ++ [JsValue.obj [("geometry", JsValue.num 7), ("symbol", JsValue.obj [])]])),
               sent := [] ++ [draw_end_send (JsValue.num 7)] } ∧
    (readJsonList (some (JsValue.arr (readJsonList none
        ++ [JsValue.obj [("geometry", JsValue.num 7), ("symbol", JsValue.obj [])]])))).length
      = (readJsonList (none : Option JsValue)).length + 1 :=
  c3_on_draw_end_effects ⟨[], true, "polygon", none, []⟩ (JsValue.num 7) (JsValue.obj [])
    (Or.inl rfl)

/-- Claim C4: the record the FeatureLayer load handler appends to
`_js_layer_list` carries exactly the keys `id`, `normalization`,
`refreshInterval` and `url`, plus `renderer` (the renderer's `toJson()` form)
and `rendererType` (its declared class) if and only if the layer has a
renderer. -/
theorem c4_feature_layer_descriptor_keys (cur : Option JsValue) (l : FeatureLayerInfo)
    (h : jsonListInv cur) :
    featureLayerLoadWrite cur l
      = some (some (JsValue.arr (readJsonList cur ++ [mkFeatureLayerDict l]))) ∧
    jsKeys (mkFeatureLayerDict l)
      = ["id", "normalization", "refreshInterval", "url"]
        ++ (match l.renderer with
            | none => []
            | some _ => ["renderer", "rendererType"]) ∧
    ("renderer" ∈ jsKeys (mkFeatureLayerDict l) ↔ l.renderer.isSome = true) ∧
    ("rendererType" ∈ jsKeys (mkFeatureLayerDict l) ↔ l.renderer.isSome = true) ∧
    (∀ r, l.renderer = some r →
      jsGetProp (mkFeatureLayerDict l) "renderer" = some r.jsonForm ∧
      jsGetProp (mkFeatureLayerDict l) "rendererType" = some (JsValue.str r.declaredClass)) := by
  refine ⟨?_, ?_, ?_, ?_, ?_⟩
  · rcases h with rfl | ⟨xs, rfl⟩ <;> rfl
  · cases hr : l.renderer <;> simp [mkFeatureLayerDict, jsKeys, hr]
  · cases hr : l.renderer <;> simp [mkFeatureLayerDict, jsKeys, hr]
  · cases hr : l.renderer <;> simp [mkFeatureLayerDict, jsKeys, hr]
  · intro r hr
    simp only [mkFeatureLayerDict, hr]
    exact ⟨rfl, rfl⟩

theorem c4_witness :
    featureLayerLoadWrite none
        ⟨"layer3", JsValue.null, JsValue.num 0, "http:u",
         some ⟨JsValue.obj [("type", JsValue.str "simple")], JsValue.null, "esriCR"⟩⟩
      = some (some (JsValue.arr (readJsonList none
          ++ [mkFeatureLayerDict
                ⟨"layer3", JsValue.null, JsValue.num 0, "http:u",
                 some ⟨JsValue.obj [("type", JsValue.str "simple")], JsValue.null, "esriCR"⟩⟩]))) ∧
    jsKeys (mkFeatureLayerDict
        ⟨"layer3", JsValue.null, JsValue.num 0, "http:u",
         some ⟨JsValue.obj [("type", JsValue.str "simple")], JsValue.null, "esriCR"⟩⟩)
      = ["id", "normalization", "refreshInterval", "url", "renderer", "rendererType"] :=
  ⟨(c4_feature_layer_descriptor_keys none _ (Or.inl rfl)).1,
   (c4_feature_layer_descriptor_keys none _ (Or.inl rfl)).2.1⟩

/-- Claim C7: with a blank web-map id, an `_extent` containing a brace yields a
map built from basemap `_basemap` and an extent whose `xmin` / `xmax` / `ymin`
/ `ymax` come from the JSON-parsed `_extent` with spatial reference wkid 4326;
otherwise the map is built from `_basemap`, the reversed `center` attribute and
the `zoom` attribute. -/
theorem c7_blank_id_map_construction (basemap extentStr : String) (parsedExtent : JsValue)
    (center : List JsValue) (zoom : JsValue) (a b c d : JsValue) :
    (strContainsBrace extentStr = true →
      jsGetProp parsedExtent "xmin" = some a → jsGetProp parsedExtent "xmax" = some b →
      jsGetProp parsedExtent "ymin" = some c → jsGetProp parsedExtent "ymax" = some d →
      load_map_blankId basemap extentStr parsedExtent center zoom
        = some (MapCtor.fromExtent basemap
                  { xmin := a, xmax := b, ymin := c, ymax := d, wkid := 4326 },
                center)) ∧
    (strContainsBrace extentStr = false →
      load_map_blankId basemap extentStr parsedExtent center zoom
        = some (MapCtor.fromCenterZoom basemap center.reverse zoom, center.reverse)) := by
  constructor
  · intro hb h1 h2 h3 h4
    simp [load_map_blankId, hb, h1, h2, h3, h4]
  · intro hb
    simp [load_map_blankId, hb]

theorem c7_witness :
    strContainsBrace "\x7b" = true ∧
    load_map_blankId "topo" "\x7b"
        (JsValue.obj [("xmin", JsValue.num 0), ("xmax", JsValue.num 1),
                      ("ymin", JsValue.num 2), ("ymax", JsValue.num 3)])
        [] (JsValue.num 4)
      = some (MapCtor.fromExtent "topo"
                { xmin := JsValue.num 0, xmax := JsValue.num 1,
                  ymin := JsValue.num 2, ymax := JsValue.num 3, wkid := 4326 },
              []) :=
  ⟨by decide,
   (c7_blank_id_map_construction "topo" "\x7b" _ [] (JsValue.num 4) _ _ _ _).1
     (by decide) rfl rfl rfl rfl⟩

/-- Claim C5: on render, a `_token_info` that is non-empty after trimming is
parsed as JSON and passed through to the identity manager — the token server
is registered, a token is generated from the supplied username and password,
and the token is registered — before the map is loaded; an empty or whitespace
`_token_info` loads the map immediately with no identity-manager calls. On
every successful run the map is loaded exactly once, as the last call. -/
theorem c5_render_token_passthrough (ti : String) (tok : JsValue) (resp : TokenResponse)
    (server tokenurl username password : JsValue) :
    (jsTrim ti = "" → renderCalls ti tok resp = some [ExtCall.loadMap]) ∧
    (jsTrim ti ≠ "" →
      jsGetProp tok "server" = some server → jsGetProp tok "tokenurl" = some tokenurl →
      jsGetProp tok "username" = some username → jsGetProp tok "password" = some password →
      renderCalls ti tok resp
        = some [ExtCall.corsPush server,
                ExtCall.registerServers server tokenurl,
                ExtCall.generateToken server tokenurl username password,
                ExtCall.registerToken server username resp.token resp.expires resp.ssl,
                ExtCall.loadMap]) ∧
    (∀ cs, renderCalls ti tok resp = some cs →
      cs.countP ExtCall.isLoadMap = 1 ∧ cs.getLast? = some ExtCall.loadMap) := by
  refine ⟨fun h => ?_, fun h hs ht hu hp => ?_, fun cs hcs => ?_⟩
  · have hneg : ¬(ti ≠ "" ∧ jsTrim ti ≠ "") := fun hc => hc.2 h
    simp [renderCalls, hneg]
  · have hne : ti ≠ "" := ne_empty_of_jsTrim_ne h
    simp [renderCalls, hne, h, hs, ht, hu, hp]
  · unfold renderCalls at hcs
    split at hcs
    · split at hcs
      · cases hcs
        exact ⟨rfl, rfl⟩
      · exact Option.noConfusion hcs
    · cases hcs
      exact ⟨rfl, rfl⟩

theorem c5_witness :
    jsTrim " tokeninfo " ≠ "" ∧
    renderCalls " tokeninfo "
        (JsValue.obj [("server", JsValue.str "s"), ("tokenurl", JsValue.str "t"),
                      ("username", JsValue.str "u"), ("password", JsValue.str "p")])
        ⟨JsValue.str "tk", JsValue.num 1, JsValue.bool true⟩
      = some [ExtCall.corsPush (JsValue.str "s"),
              ExtCall.registerServers (JsValue.str "s") (JsValue.str "t"),
              ExtCall.generateToken (JsValue.str "s") (JsValue.str "t")
                (JsValue.str "u") (JsValue.str "p"),
              ExtCall.registerToken (JsValue.str "s") (JsValue.str "u")
                (JsValue.str "tk") (JsValue.num 1) (JsValue.bool true),
              ExtCall.loadMap] :=
  ⟨by decide,
   (c5_render_token_passthrough " tokeninfo " _ _ _ _ _ _).2.1
     (by decide) rfl rfl rfl rfl⟩

/-- Counterexample to claim C6 as stated: with `_basemap = "streets"` and a
basemap layer whose `resourceInfo` parses to an object whose `documentInfo` is
an object lacking `Title`, the recorded title is `undefined`, not the claimed
fallback to `_basemap` — the property read yields `undefined` without
throwing, so the `catch` never runs. -/
theorem c6_title_absent_counterexample :
    jsGetProp (JsValue.obj [("documentInfo", JsValue.obj [])]) "documentInfo"
      = some (JsValue.obj []) ∧
    jsGetProp (JsValue.obj []) "Title" = some JsValue.undefined ∧
    basemapTitle "streets" (some (JsValue.obj [("documentInfo", JsValue.obj [])]))
      = JsValue.undefined ∧
    JsValue.undefined ≠ JsValue.str "streets" := by
  refine ⟨rfl, rfl, rfl, fun h => JsValue.noConfusion h⟩

/-- Claim C6 amended: the recorded title falls back to `_basemap` exactly when
`JSON.parse(resourceInfo)` throws or when reading `.documentInfo.Title` throws
a TypeError (the resource or its `documentInfo` is `null` / `undefined`); when
`documentInfo` is present but lacks `Title`, the recorded title is the
`undefined` value and the serialized record simply omits the `title` key. In
every case exactly one `url` / `title` record per basemap layer is produced
and the `_js_basemap` write always happens, so a parse failure never prevents
the update. -/
theorem c6_basemap_title_amended (bm : String) (layers : List BasemapLayer)
    (v d t u : JsValue) :
    (basemap_changed_records bm layers).length = layers.length ∧
    basemap_changed_records bm layers
      = layers.map (fun ly =>
          JsValue.obj [("url", ly.url), ("title", basemapTitle bm ly.resourceInfo)]) ∧
    basemap_changed_write bm layers
      = (JsValue.arr (basemap_changed_records bm layers)).stringify ∧
    basemapTitle bm none = JsValue.str bm ∧
    (jsGetProp v "documentInfo" = none → basemapTitle bm (some v) = JsValue.str bm) ∧
    (jsGetProp v "documentInfo" = some d → jsGetProp d "Title" = none →
      basemapTitle bm (some v) = JsValue.str bm) ∧
    (jsGetProp v "documentInfo" = some d → jsGetProp d "Title" = some t →
      basemapTitle bm (some v) = t) ∧
    (JsValue.obj [("url", u), ("title", JsValue.undefined)]).stringify
      = (JsValue.obj [("url", u)]).stringify := by
  refine ⟨?_, rfl, rfl, rfl, fun h => ?_, fun h1 h2 => ?_, fun h1 h2 => ?_, ?_⟩
  · simp [basemap_changed_records]
  · simp [basemapTitle, h]
  · simp [basemapTitle, h1, h2]
  · simp [basemapTitle, h1, h2]
  · cases u <;> rfl

theorem c6_witness :
    jsGetProp (JsValue.obj [("documentInfo", JsValue.obj [("Title", JsValue.str "Streets")])])
        "documentInfo" = some (JsValue.obj [("Title", JsValue.str "Streets")]) ∧
    jsGetProp (JsValue.obj [("Title", JsValue.str "Streets")]) "Title"
      = some (JsValue.str "Streets") ∧
    basemapTitle "gray"
        (some (JsValue.obj [("documentInfo", JsValue.obj [("Title", JsValue.str "Streets")])]))
      = JsValue.str "Streets" :=
  ⟨rfl, rfl,
   (c6_basemap_title_amended "gray" []
       (JsValue.obj [("documentInfo", JsValue.obj [("Title", JsValue.str "Streets")])])
       (JsValue.obj [("Title", JsValue.str "Streets")]) (JsValue.str "Streets")
       JsValue.null).2.2.2.2.2.2.1 rfl rfl⟩

/-- Claim C1: from a state satisfying the data-model invariant, every value
the view writes to `_js_layer_list` or `_js_interactive_drawn_graphic` — the
`onDrawEnd` append, the three layer-load appends, and the `renderer-change`
update — is a serialized array (never empty, so distinguishable from the
absent case), the `###clear_graphics` mode resets
`_js_interactive_drawn_graphic` to the empty string, and on the read side an
empty string is taken as the empty list. -/
theorem c1_js_list_attrs_empty_or_json_array
    (cur : Option JsValue) (st : DrawState) (g sfs : JsValue)
    (fl fc : FeatureLayerInfo) (il : ImageryLayerInfo)
    (hasOptions : Bool) (optRenderer : Option String) (rj : JsValue) (rc : String)
    (h : jsonListInv cur) (hst : st.dgList = cur) :
    (∀ st', onDrawEnd st g sfs = some st' → ∃ l, st'.dgList = some (JsValue.arr l)) ∧
    mode_changed_dg "###clear_graphics" cur = none ∧
    jstrToString (mode_changed_dg "###clear_graphics" cur) = "" ∧
    (∃ l, featureLayerLoadWrite cur fl = some (some (JsValue.arr l))) ∧
    (∃ l, imageryLayerLoadWrite cur il = some (some (JsValue.arr l))) ∧
    (∃ l, fcLayerWrite cur fc = some (some (JsValue.arr l))) ∧
    (∀ w, rendererChangeListWrite hasOptions optRenderer cur rj rc = some w →
      ∃ l, w = some (JsValue.arr l)) ∧
    pushToJsonList none g = some [g] ∧
    readJsonList (none : Option JsValue) = [] ∧
    (∀ l, jstrToString (some (JsValue.arr l)) = (JsValue.arr l).stringify ∧
      (JsValue.arr l).stringify ≠ "") := by
  refine ⟨?_, ?_, ?_, ?_, ?_, ?_, ?_, rfl, rfl, fun l => ⟨rfl, stringify_arr_ne_empty l⟩⟩
  · intro st' hst'
    simp only [onDrawEnd] at hst'
    split at hst'
    · exact Option.noConfusion hst'
    · cases hst'
      exact ⟨_, rfl⟩
  · simp [mode_changed_dg]
  · simp [mode_changed_dg, jstrToString]
  · rcases h with rfl | ⟨xs, rfl⟩
    · exact ⟨[mkFeatureLayerDict fl], rfl⟩
    · exact ⟨xs ++ [mkFeatureLayerDict fl], rfl⟩
  · rcases h with rfl | ⟨xs, rfl⟩
    · exact ⟨[mkImageryLayerDict il], rfl⟩
    · exact ⟨xs ++ [mkImageryLayerDict il], rfl⟩
  · rcases h with rfl | ⟨xs, rfl⟩
    · exact ⟨[mkFCLayerDict fc], rfl⟩
    · exact ⟨xs ++ [mkFCLayerDict fc], rfl⟩
  · intro w hw
    exact rendererChange_writes_array hasOptions optRenderer cur rj rc h w hw

theorem c1_witness :
    (∀ st', onDrawEnd ⟨[], true, "polygon", none, []⟩ (JsValue.num 7) (JsValue.obj [])
        = some st' → ∃ l, st'.dgList = some (JsValue.arr l)) ∧
    mode_changed_dg "###clear_graphics" none = none ∧
    jstrToString (mode_changed_dg "###clear_graphics" none) = "" ∧
    (∃ l, featureLayerLoadWrite none ⟨"f", JsValue.null, JsValue.num 0, "u", none⟩
        = some (some (JsValue.arr l))) ∧
    (∃ l, imageryLayerLoadWrite none
        ⟨"i", JsValue.null, JsValue.null, "u", JsValue.null, none⟩
        = some (some (JsValue.arr l))) ∧
    (∃ l, fcLayerWrite none ⟨"f", JsValue.null, JsValue.num 0, "u", none⟩
        = some (some (JsValue.arr l))) ∧
    (∀ w, rendererChangeListWrite true (some "ClassedColorRenderer") none
        (JsValue.obj []) "esriCCR" = some w → ∃ l, w = some (JsValue.arr l)) ∧
    pushToJsonList none (JsValue.num 7) = some [JsValue.num 7] ∧
    readJsonList (none : Option JsValue) = [] ∧
    (∀ l, jstrToString (some (JsValue.arr l)) = (JsValue.arr l).stringify ∧
      (JsValue.arr l).stringify ≠ "") :=
  c1_js_list_attrs_empty_or_json_array none ⟨[], true, "polygon", none, []⟩
    (JsValue.num 7) (JsValue.obj [])
    ⟨"f", JsValue.null, JsValue.num 0, "u", none⟩
    ⟨"f", JsValue.null, JsValue.num 0, "u", none⟩
    ⟨"i", JsValue.null, JsValue.null, "u", JsValue.null, none⟩
    true (some "ClassedColorRenderer") (JsValue.obj []) "esriCCR"
    (Or.inl rfl) rfl
